import Mathlib

/-!
Shallow embedding of the go-flaresolverr client library (`client.go`).

The library is a thin request/response marshaling layer: a constructor
`New`, five public operations that each build a `flaresolverrCommand`,
a shared dispatch `do` that sets the wire timeout, serializes the command
to JSON, performs one HTTP POST with a context deadline, decodes the
reply and classifies non-200 replies into errors, plus the helpers
`handleError` and `handleSession`.

Modelling choices:
- Go `time.Duration` is an `Int` counting nanoseconds; `Milliseconds()`
  is truncated division by 10^6 (`Int.div`, which rounds toward zero,
  exactly as Go's integer division does).
- `uuid.UUID` (`[16]byte` from github.com/google/uuid) is a structure of
  sixteen byte fields; `uuid.Nil` is the all-zero value and `String()`
  is the canonical lowercase-hex 8-4-4-4-12 rendering.
- `strings.ToLower` is modelled on ASCII letters (the classifier needle
  "maximum timeout reached" is pure ASCII); `strings.Contains` is a
  direct substring scan.
- The network exchange inside `do` is a parameter (`ExchangeOutcome`):
  the request build, transport and decode steps either fail with a Go
  error message or deliver an HTTP status code together with the decoded
  `Response` body.  `do`'s observable behaviour (the serialized wire
  payload, the context timeout it installs, and its `(*Response, error)`
  return pair) is recorded in a `DoTrace`.
-/

/-- One ASCII character of Go `strings.ToLower`: uppercase `A`-`Z` maps to
the corresponding lowercase letter, everything else is unchanged. -/
def goToLowerChar (c : Char) : Char :=
  if 'A' ≤ c ∧ c ≤ 'Z' then Char.ofNat (c.toNat + 32) else c

/-- Go `strings.ToLower` (restricted to ASCII case mapping). -/
def goToLower (s : String) : String :=
  ⟨s.data.map goToLowerChar⟩

/-- Does `sub` occur at the head of `s`? (helper for the substring scan) -/
def listHasPre : List Char → List Char → Bool
  | [], _ => true
  | _ :: _, [] => false
  | a :: as, b :: bs => a == b && listHasPre as bs

/-- Go `strings.Contains` on character lists: `sub` occurs somewhere in `s`. -/
def containsSub : List Char → List Char → Bool
  | [], sub => sub.isEmpty
  | c :: rest, sub => listHasPre sub (c :: rest) || containsSub rest sub

/-- Go `strings.Contains` on strings. -/
def stringContains (s sub : String) : Bool :=
  containsSub s.data sub.data

/-- `uuid.UUID` from github.com/google/uuid: a `[16]byte` array, here a
structure of sixteen byte fields (each meant to lie below 256). -/
structure UUID where
  (b0 b1 b2 b3 b4 b5 b6 b7 b8 b9 b10 b11 b12 b13 b14 b15 : Nat)
deriving DecidableEq

/-- `uuid.Nil`, the all-zero UUID. -/
def uuidNil : UUID := ⟨0, 0, 0, 0, 0, 0, 0, 0, 0, 0, 0, 0, 0, 0, 0, 0⟩

/-- Well-formedness of the byte fields: each one is an actual byte. -/
def uuidWF (u : UUID) : Prop :=
  u.b0 < 256 ∧ u.b1 < 256 ∧ u.b2 < 256 ∧ u.b3 < 256 ∧
  u.b4 < 256 ∧ u.b5 < 256 ∧ u.b6 < 256 ∧ u.b7 < 256 ∧
  u.b8 < 256 ∧ u.b9 < 256 ∧ u.b10 < 256 ∧ u.b11 < 256 ∧
  u.b12 < 256 ∧ u.b13 < 256 ∧ u.b14 < 256 ∧ u.b15 < 256

instance (u : UUID) : Decidable (uuidWF u) := by
  unfold uuidWF; infer_instance

/-- One lowercase hexadecimal digit: `0`-`9` then `a`-`f`. -/
def hexDigit (n : Nat) : Char :=
  if n < 10 then Char.ofNat (48 + n) else Char.ofNat (87 + n)

/-- `encoding/hex` of one byte: two lowercase hexadecimal digits. -/
def byteHex (b : Nat) : List Char :=
  [hexDigit (b / 16), hexDigit (b % 16)]

/-- `uuid.UUID.String()`: the canonical lowercase 8-4-4-4-12 hex form,
hyphens after bytes 3, 5, 7 and 9. -/
def uuidString (u : UUID) : String :=
  ⟨byteHex u.b0 ++ byteHex u.b1 ++ byteHex u.b2 ++ byteHex u.b3 ++ ['-'] ++
   byteHex u.b4 ++ byteHex u.b5 ++ ['-'] ++
   byteHex u.b6 ++ byteHex u.b7 ++ ['-'] ++
   byteHex u.b8 ++ byteHex u.b9 ++ ['-'] ++
   byteHex u.b10 ++ byteHex u.b11 ++ byteHex u.b12 ++
   byteHex u.b13 ++ byteHex u.b14 ++ byteHex u.b15⟩

/-- `handleSession` from client.go: the nil UUID serializes to the empty
string, any other UUID to its canonical string form. -/
def handleSession (session : UUID) : String :=
  if session = uuidNil then "" else uuidString session

/-- Go `time.Duration.Milliseconds()`: nanoseconds divided by 10^6 with
truncation toward zero (Go integer division). -/
def durationMilliseconds (d : Int) : Int :=
  Int.tdiv d 1000000

/-- The `*http.Client` handed to the constructor: either the package-level
`http.DefaultClient` or some other client, distinguished by identity. -/
inductive HTTPClient where
  | defaultClient
  | custom (id : Nat)
deriving DecidableEq

/-- The `client` struct from client.go. -/
structure client where
  baseURL : String
  httpClient : HTTPClient
  timeout : Int
deriving DecidableEq

/-- `New` from client.go: substitutes `http.DefaultClient` for a nil
transport and 60000 ms for a zero timeout, then stores the fields. -/
def New (baseURL : String) (timeout : Int) (httpClient : Option HTTPClient) : client :=
  let httpClient := match httpClient with
    | none => HTTPClient.defaultClient
    | some c => c
  let timeout := if timeout = 0 then 1000000 * 60000 else timeout
  { baseURL := baseURL, httpClient := httpClient, timeout := timeout }

/-- The `command` discriminant type.  Its constant declarations live in a
repository file that is not under src/; the five constructors mirror the
five constants named in client.go. -/
inductive Command where
  | CommandSessionscreate
  | CommandSessionslist
  | CommandSessionsdestroy
  | CommandRequestget
  | CommandRequestpost
deriving DecidableEq

/-- Modelled from the spec: the string values of the five `command`
constants are declared in a repository file missing from src/; per the
spec they are the discriminants `sessions.create`, `sessions.list`,
`sessions.destroy`, `request.get` and `request.post`. -/
def commandString : Command → String
  | .CommandSessionscreate => "sessions.create"
  | .CommandSessionslist => "sessions.list"
  | .CommandSessionsdestroy => "sessions.destroy"
  | .CommandRequestget => "request.get"
  | .CommandRequestpost => "request.post"

/-- The fixed set of named headers inside `ResponseSolution` (client.go). -/
structure SolutionHeaders where
  (Status Date ContentType Expires CacheControl Pragma : String)
  (XFrameOptions XContentTypeOptions CfCacheStatus ExpectCt : String)
  (ReportTo Nel Server CfRay ContentEncoding AltSvc : String)

/-- One cookie record inside `ResponseSolution` (client.go). -/
structure SolutionCookie where
  Name : String
  Value : String
  Domain : String
  Path : String
  Expires : Float
  Size : Int
  HTTPOnly : Bool
  Secure : Bool
  Session : Bool
  SameSite : String

/-- `ResponseSolution` from client.go. -/
structure ResponseSolution where
  URL : String
  Status : Int
  Headers : SolutionHeaders
  Response : String
  Cookies : List SolutionCookie
  UserAgent : String

/-- `Response` from client.go: the decoded reply body. -/
structure Response where
  Status : String
  Message : String
  StartTimestamp : Int
  EndTimestamp : Int
  Version : String
  Session : String
  Sessions : List UUID
  Solution : Option ResponseSolution

/-- A JSON value, for the serialized wire shape of a command. -/
inductive JValue where
  | jstr (s : String)
  | jnum (n : Int)
  | jbool (b : Bool)
  | jarr (xs : List JValue)

/-- `flaresolverrCommand` from client.go.  The default field values are
the Go zero values that a partial struct literal leaves in place. -/
structure flaresolverrCommand where
  Cmd : Command
  URL : String := ""
  Session : String := ""
  MaxTimeout : Int := 0
  Cookies : List JValue := []
  ReturnOnlyCookies : Bool := false
  Proxy : String := ""
  PostData : String := ""

/-- `encoding/json` marshalling of `flaresolverrCommand`, following the
struct tags of client.go: fields in declaration order, `cmd`, `url` and
`maxTimeout` always present, the `omitempty` fields dropped at their Go
zero value (empty string, empty slice, false). -/
def commandJSONFields (fc : flaresolverrCommand) : List (String × JValue) :=
  [("cmd", JValue.jstr (commandString fc.Cmd)), ("url", JValue.jstr fc.URL)] ++
  (if fc.Session = "" then [] else [("session", JValue.jstr fc.Session)]) ++
  [("maxTimeout", JValue.jnum fc.MaxTimeout)] ++
  (if fc.Cookies.isEmpty then [] else [("cookies", JValue.jarr fc.Cookies)]) ++
  (if fc.ReturnOnlyCookies then [("returnOnlyCookies", JValue.jbool fc.ReturnOnlyCookies)] else []) ++
  (if fc.Proxy = "" then [] else [("proxy", JValue.jstr fc.Proxy)]) ++
  (if fc.PostData = "" then [] else [("postData", JValue.jstr fc.PostData)])

/-- The two classified sentinel errors of client.go: `ErrRequestTimeout`
(returned bare) and `ErrUnexpectedError` (wrapped around the original
message by `fmt.Errorf`). -/
inductive FlareError where
  | errRequestTimeout
  | errUnexpected (originalMessage : String)
deriving DecidableEq

/-- The rendered `Error()` text of a classified error:
`ErrRequestTimeout` is `errors.New("maximum timeout reached")`, and the
wrapped unexpected error is `fmt.Errorf("%w: %s", ErrUnexpectedError, msg)`. -/
def flareErrorText : FlareError → String
  | .errRequestTimeout => "maximum timeout reached"
  | .errUnexpected m => "unexpected error from FlareSolverr server: " ++ m

/-- `handleError` from client.go: lowercase the message; a message
containing "maximum timeout reached" classifies as the timeout sentinel,
anything else as the unexpected-error wrap of the original message. -/
def handleError (resp : Response) : FlareError :=
  if stringContains (goToLower resp.Message) "maximum timeout reached" then
    FlareError.errRequestTimeout
  else
    FlareError.errUnexpected resp.Message

/-- The error values `do` can return, one constructor per `fmt.Errorf`
wrap in client.go plus the classified branch. -/
inductive DoError where
  | invalidCommand (msg : String)
  | cannotMakeRequest (msg : String)
  | requestFailed (msg : String)
  | cannotReadResponse (msg : String)
  | classified (e : FlareError)
deriving DecidableEq

/-- The outcome of the external part of one `do` exchange: building the
request, the transport, or the body decode can fail with a Go error
message, otherwise the exchange delivers an HTTP status code and the
decoded `Response` body.  (Encoding the command itself cannot fail for
this struct, so no outcome models it.) -/
inductive ExchangeOutcome where
  | requestBuildFailure (msg : String)
  | transportFailure (msg : String)
  | decodeFailure (msg : String)
  | reply (statusCode : Nat) (body : Response)

/-- The observable behaviour of one `do` call: the wire command after the
`MaxTimeout` override, its serialized JSON payload, the timeout installed
on the context, and the `(*Response, error)` return pair. -/
structure DoTrace where
  wireCommand : flaresolverrCommand
  payload : List (String × JValue)
  contextTimeout : Int
  response : Option Response
  err : Option DoError

/-- `do` from client.go: override `MaxTimeout` with the configured
timeout in milliseconds, serialize, install a context deadline of the
configured timeout plus ten seconds, run the exchange, decode, and
return the body on HTTP 200 or the classified error otherwise. -/
def doFull (c : client) (cmd : flaresolverrCommand) (o : ExchangeOutcome) : DoTrace :=
  let wire := { cmd with MaxTimeout := durationMilliseconds c.timeout }
  let payload := commandJSONFields wire
  let ctxTimeout := c.timeout + 10 * 1000000000
  match o with
  | .requestBuildFailure m =>
      ⟨wire, payload, ctxTimeout, none, some (DoError.cannotMakeRequest m)⟩
  | .transportFailure m =>
      ⟨wire, payload, ctxTimeout, none, some (DoError.requestFailed m)⟩
  | .decodeFailure m =>
      ⟨wire, payload, ctxTimeout, none, some (DoError.cannotReadResponse m)⟩
  | .reply statusCode body =>
      if statusCode ≠ 200 then
        ⟨wire, payload, ctxTimeout, none, some (DoError.classified (handleError body))⟩
      else
        ⟨wire, payload, ctxTimeout, some body, none⟩

/-- The command built by `CreateSession` (client.go). -/
def createSessionCmd (session : UUID) (proxy : List String) : flaresolverrCommand :=
  let cmd : flaresolverrCommand :=
    { Cmd := Command.CommandSessionscreate, Session := handleSession session }
  match proxy with
  | [] => cmd
  | p :: _ => { cmd with Proxy := p }

/-- `CreateSession` from client.go. -/
def CreateSession (c : client) (session : UUID) (proxy : List String)
    (o : ExchangeOutcome) : DoTrace :=
  doFull c (createSessionCmd session proxy) o

/-- The command built by `ListSessions` (client.go). -/
def listSessionsCmd : flaresolverrCommand :=
  { Cmd := Command.CommandSessionslist }

/-- `ListSessions` from client.go. -/
def ListSessions (c : client) (o : ExchangeOutcome) : DoTrace :=
  doFull c listSessionsCmd o

/-- The command built by `DestroySession` (client.go). -/
def destroySessionCmd (session : UUID) : flaresolverrCommand :=
  { Cmd := Command.CommandSessionsdestroy, Session := handleSession session }

/-- `DestroySession` from client.go: discards the response, keeps the error. -/
def DestroySession (c : client) (session : UUID) (o : ExchangeOutcome) : Option DoError :=
  (doFull c (destroySessionCmd session) o).err

/-- The command built by `Get` (client.go). -/
def getCmd (u : String) (session : UUID) (proxy : List String) : flaresolverrCommand :=
  let cmd : flaresolverrCommand :=
    { Cmd := Command.CommandRequestget, URL := u, Session := handleSession session,
      Cookies := [], ReturnOnlyCookies := false }
  match proxy with
  | [] => cmd
  | p :: _ => { cmd with Proxy := p }

/-- `Get` from client.go. -/
def Get (c : client) (u : String) (session : UUID) (proxy : List String)
    (o : ExchangeOutcome) : DoTrace :=
  doFull c (getCmd u session proxy) o

/-- The command built by `Post` (client.go). -/
def postCmd (u : String) (session : UUID) (data : String) (proxy : List String) :
    flaresolverrCommand :=
  let cmd : flaresolverrCommand :=
    { Cmd := Command.CommandRequestpost, URL := u, Session := handleSession session,
      Cookies := [], ReturnOnlyCookies := false, PostData := data }
  match proxy with
  | [] => cmd
  | p :: _ => { cmd with Proxy := p }

/-- `Post` from client.go. -/
def Post (c : client) (u : String) (session : UUID) (data : String)
    (proxy : List String) (o : ExchangeOutcome) : DoTrace :=
  doFull c (postCmd u session data proxy) o

/-- Is `c` a lowercase hexadecimal digit (`0`-`9` or `a`-`f`)? -/
def isLowerHexDigit (c : Char) : Bool :=
  ('0' ≤ c && c ≤ '9') || ('a' ≤ c && c ≤ 'f')

/-- The canonical 36-character lowercase-hyphenated UUID string shape:
five lowercase-hex groups of lengths 8, 4, 4, 4 and 12 joined by hyphens. -/
def canonicalUUIDString (s : String) : Prop :=
  s.length = 36 ∧
  ∃ g1 g2 g3 g4 g5 : List Char,
    s.data = g1 ++ '-' :: (g2 ++ '-' :: (g3 ++ '-' :: (g4 ++ '-' :: g5))) ∧
    g1.length = 8 ∧ g2.length = 4 ∧ g3.length = 4 ∧ g4.length = 4 ∧ g5.length = 12 ∧
    ∀ c ∈ g1 ++ g2 ++ g3 ++ g4 ++ g5, isLowerHexDigit c = true

/-- A dispatch trace whose wire command and serialized payload carry
neither the reserved `cookies` field nor `returnOnlyCookies`. -/
def omitsReservedFields (t : DoTrace) : Prop :=
  t.wireCommand.Cookies = [] ∧ t.wireCommand.ReturnOnlyCookies = false ∧
  (t.payload.map Prod.fst).contains "cookies" = false ∧
  (t.payload.map Prod.fst).contains "returnOnlyCookies" = false

/-- A sample successful reply body, for concrete instantiations. -/
def sampleOkResponse : Response :=
  ⟨"ok", "Session created successfully.", 0, 0, "", "", [], none⟩

/-- A sample failing reply body, for concrete instantiations. -/
def sampleErrResponse : Response :=
  ⟨"error", "Oops, something went wrong!", 0, 0, "", "", [], none⟩

theorem string_length_eq_data_length (s : String) : s.length = s.data.length := rfl

theorem hexDigit_lowerHex : ∀ n, n < 16 → isLowerHexDigit (hexDigit n) = true := by decide

set_option maxRecDepth 4096 in
theorem byteHex_lowerHex : ∀ b, b < 256 → ∀ c ∈ byteHex b, isLowerHexDigit c = true := by
  decide

set_option maxRecDepth 4096 in
theorem hexPair_zero :
    ∀ b, b < 256 → hexDigit (b / 16) = hexDigit 0 → hexDigit (b % 16) = hexDigit 0 → b = 0 := by
  decide

theorem uuidString_length (u : UUID) : (uuidString u).length = 36 := by
  rw [string_length_eq_data_length]
  simp [uuidString, byteHex]

theorem uuidString_canonical (u : UUID) (h : uuidWF u) :
    canonicalUUIDString (uuidString u) := by
  obtain ⟨b0, b1, b2, b3, b4, b5, b6, b7, b8, b9, b10, b11, b12, b13, b14, b15⟩ := u
  obtain ⟨h0, h1, h2, h3, h4, h5, h6, h7, h8, h9, h10, h11, h12, h13, h14, h15⟩ := h
  refine ⟨uuidString_length _,
    byteHex b0 ++ byteHex b1 ++ byteHex b2 ++ byteHex b3,
    byteHex b4 ++ byteHex b5, byteHex b6 ++ byteHex b7, byteHex b8 ++ byteHex b9,
    byteHex b10 ++ byteHex b11 ++ byteHex b12 ++ byteHex b13 ++ byteHex b14 ++ byteHex b15,
    ?_, ?_, ?_, ?_, ?_, ?_, ?_⟩
  · simp [uuidString, byteHex]
  · simp [byteHex]
  · simp [byteHex]
  · simp [byteHex]
  · simp [byteHex]
  · simp [byteHex]
  · intro c hc
    simp only [List.append_assoc, List.mem_append] at hc
    rcases hc with hc | hc | hc | hc | hc | hc | hc | hc | hc | hc | hc | hc | hc | hc | hc | hc
    exacts [byteHex_lowerHex b0 h0 c hc, byteHex_lowerHex b1 h1 c hc,
      byteHex_lowerHex b2 h2 c hc, byteHex_lowerHex b3 h3 c hc,
      byteHex_lowerHex b4 h4 c hc, byteHex_lowerHex b5 h5 c hc,
      byteHex_lowerHex b6 h6 c hc, byteHex_lowerHex b7 h7 c hc,
      byteHex_lowerHex b8 h8 c hc, byteHex_lowerHex b9 h9 c hc,
      byteHex_lowerHex b10 h10 c hc, byteHex_lowerHex b11 h11 c hc,
      byteHex_lowerHex b12 h12 c hc, byteHex_lowerHex b13 h13 c hc,
      byteHex_lowerHex b14 h14 c hc, byteHex_lowerHex b15 h15 c hc]

set_option maxHeartbeats 1000000 in
theorem uuid_mk_nil_of_hex (b0 b1 b2 b3 b4 b5 b6 b7 b8 b9 b10 b11 b12 b13 b14 b15 : Nat)
    (heq : uuidString ⟨b0, b1, b2, b3, b4, b5, b6, b7, b8, b9, b10, b11, b12, b13, b14, b15⟩
      = uuidString uuidNil)
    (h0 : b0 < 256) (h1 : b1 < 256) (h2 : b2 < 256) (h3 : b3 < 256) (h4 : b4 < 256)
    (h5 : b5 < 256) (h6 : b6 < 256) (h7 : b7 < 256) (h8 : b8 < 256) (h9 : b9 < 256)
    (h10 : b10 < 256) (h11 : b11 < 256) (h12 : b12 < 256) (h13 : b13 < 256)
    (h14 : b14 < 256) (h15 : b15 < 256) :
    UUID.mk b0 b1 b2 b3 b4 b5 b6 b7 b8 b9 b10 b11 b12 b13 b14 b15 = uuidNil := by
  have hd : (uuidString ⟨b0, b1, b2, b3, b4, b5, b6, b7, b8, b9, b10, b11, b12, b13, b14, b15⟩).data
      = (uuidString uuidNil).data := congrArg String.data heq
  simp only [uuidString, byteHex, Nat.zero_div, Nat.zero_mod, List.cons_append,
    List.nil_append] at hd
  simp only [List.cons.injEq, and_true, true_and] at hd
  obtain ⟨e0a, e0b, e1a, e1b, e2a, e2b, e3a, e3b, e4a, e4b, e5a, e5b, e6a, e6b, e7a, e7b,
    e8a, e8b, e9a, e9b, e10a, e10b, e11a, e11b, e12a, e12b, e13a, e13b, e14a, e14b,
    e15a, e15b⟩ := hd
  simp only [uuidNil, UUID.mk.injEq]
  exact ⟨hexPair_zero _ h0 e0a e0b, hexPair_zero _ h1 e1a e1b, hexPair_zero _ h2 e2a e2b,
    hexPair_zero _ h3 e3a e3b, hexPair_zero _ h4 e4a e4b, hexPair_zero _ h5 e5a e5b,
    hexPair_zero _ h6 e6a e6b, hexPair_zero _ h7 e7a e7b, hexPair_zero _ h8 e8a e8b,
    hexPair_zero _ h9 e9a e9b, hexPair_zero _ h10 e10a e10b, hexPair_zero _ h11 e11a e11b,
    hexPair_zero _ h12 e12a e12b, hexPair_zero _ h13 e13a e13b, hexPair_zero _ h14 e14a e14b,
    hexPair_zero _ h15 e15a e15b⟩

theorem uuidString_nil_inj (u : UUID) (h : uuidWF u) :
    uuidString u = uuidString uuidNil → u = uuidNil := by
  obtain ⟨b0, b1, b2, b3, b4, b5, b6, b7, b8, b9, b10, b11, b12, b13, b14, b15⟩ := u
  obtain ⟨h0, h1, h2, h3, h4, h5, h6, h7, h8, h9, h10, h11, h12, h13, h14, h15⟩ := h
  intro heq
  exact uuid_mk_nil_of_hex b0 b1 b2 b3 b4 b5 b6 b7 b8 b9 b10 b11 b12 b13 b14 b15 heq
    h0 h1 h2 h3 h4 h5 h6 h7 h8 h9 h10 h11 h12 h13 h14 h15

/-- C3: the identifier-serialization function `handleSession` returns the
empty string exactly on the all-zero (nil) UUID; on every other UUID it
returns that UUID's canonical 36-character lowercase-hyphenated string
form, which is never the nil UUID's canonical string. -/
theorem handleSession_spec (u : UUID) (h : uuidWF u) :
    ((handleSession u = "") ↔ u = uuidNil) ∧
    (u ≠ uuidNil →
      handleSession u = uuidString u ∧
      canonicalUUIDString (handleSession u) ∧
      handleSession u ≠ uuidString uuidNil) := by
  constructor
  · constructor
    · intro he
      by_contra hne
      have h1 : handleSession u = uuidString u := by simp [handleSession, hne]
      have h2 := uuidString_length u
      rw [h1] at he
      rw [he] at h2
      simp [string_length_eq_data_length] at h2
    · intro he
      subst he
      simp [handleSession]
  · intro hne
    have h1 : handleSession u = uuidString u := by simp [handleSession, hne]
    refine ⟨h1, ?_, ?_⟩
    · rw [h1]
      exact uuidString_canonical u h
    · rw [h1]
      intro heq
      exact hne (uuidString_nil_inj u h heq)

/-- Witness for C3 at the UUID 47d0a203-a007-4a01-b8c1-0cf0156c3cc7 of the
repository's own test data. -/
theorem handleSession_spec_witness :
    uuidWF ⟨0x47, 0xd0, 0xa2, 0x03, 0xa0, 0x07, 0x4a, 0x01,
            0xb8, 0xc1, 0x0c, 0xf0, 0x15, 0x6c, 0x3c, 0xc7⟩ ∧
    (((handleSession ⟨0x47, 0xd0, 0xa2, 0x03, 0xa0, 0x07, 0x4a, 0x01,
                      0xb8, 0xc1, 0x0c, 0xf0, 0x15, 0x6c, 0x3c, 0xc7⟩ = "") ↔
        (⟨0x47, 0xd0, 0xa2, 0x03, 0xa0, 0x07, 0x4a, 0x01,
          0xb8, 0xc1, 0x0c, 0xf0, 0x15, 0x6c, 0x3c, 0xc7⟩ : UUID) = uuidNil) ∧
      ((⟨0x47, 0xd0, 0xa2, 0x03, 0xa0, 0x07, 0x4a, 0x01,
         0xb8, 0xc1, 0x0c, 0xf0, 0x15, 0x6c, 0x3c, 0xc7⟩ : UUID) ≠ uuidNil →
        handleSession ⟨0x47, 0xd0, 0xa2, 0x03, 0xa0, 0x07, 0x4a, 0x01,
                       0xb8, 0xc1, 0x0c, 0xf0, 0x15, 0x6c, 0x3c, 0xc7⟩
            = uuidString ⟨0x47, 0xd0, 0xa2, 0x03, 0xa0, 0x07, 0x4a, 0x01,
                          0xb8, 0xc1, 0x0c, 0xf0, 0x15, 0x6c, 0x3c, 0xc7⟩ ∧
        canonicalUUIDString (handleSession ⟨0x47, 0xd0, 0xa2, 0x03, 0xa0, 0x07, 0x4a, 0x01,
                                            0xb8, 0xc1, 0x0c, 0xf0, 0x15, 0x6c, 0x3c, 0xc7⟩) ∧
        handleSession ⟨0x47, 0xd0, 0xa2, 0x03, 0xa0, 0x07, 0x4a, 0x01,
                       0xb8, 0xc1, 0x0c, 0xf0, 0x15, 0x6c, 0x3c, 0xc7⟩ ≠ uuidString uuidNil)) :=
  ⟨by decide, handleSession_spec _ (by decide)⟩

/-- C1: on a reply with non-200 HTTP status, `do` returns the classified
error of the decoded body and no response; the classifier `handleError`
depends only on the message string, case-insensitively maps any message
containing "maximum timeout reached" to the timeout sentinel, and wraps
every other message, preserved verbatim, in the unexpected-error wrap. -/
theorem handleError_classification (c : client) (cmd : flaresolverrCommand)
    (statusCode : Nat) (body : Response) (h : statusCode ≠ 200) :
    (doFull c cmd (ExchangeOutcome.reply statusCode body)).err
        = some (DoError.classified (handleError body)) ∧
    (doFull c cmd (ExchangeOutcome.reply statusCode body)).response = none ∧
    (∀ r r' : Response, r.Message = r'.Message → handleError r = handleError r') ∧
    (stringContains (goToLower body.Message) "maximum timeout reached" = true →
        handleError body = FlareError.errRequestTimeout) ∧
    (stringContains (goToLower body.Message) "maximum timeout reached" = false →
        handleError body = FlareError.errUnexpected body.Message ∧
        flareErrorText (handleError body)
          = "unexpected error from FlareSolverr server: " ++ body.Message) := by
  refine ⟨?_, ?_, ?_, ?_, ?_⟩
  · simp [doFull, h]
  · simp [doFull, h]
  · intro r r' hm
    simp only [handleError, hm]
  · intro ht
    simp [handleError, ht]
  · intro hf
    simp [handleError, hf, flareErrorText]

/-- Witness for C1: a 500 reply with the test suite's generic error
message classifies as the wrapped unexpected error. -/
theorem handleError_classification_witness :
    (500 : Nat) ≠ 200 ∧
    (doFull (New "http://localhost:8191/v1" 0 none) listSessionsCmd
        (ExchangeOutcome.reply 500 sampleErrResponse)).err
      = some (DoError.classified (FlareError.errUnexpected "Oops, something went wrong!")) := by
  have h := handleError_classification (New "http://localhost:8191/v1" 0 none)
    listSessionsCmd 500 sampleErrResponse (by decide)
  refine ⟨by decide, ?_⟩
  rw [h.1]
  have h5 := h.2.2.2.2 (by decide)
  rw [h5.1]
  rfl

/-- C9: every message containing "maximum timeout reached" (after
lowercasing) classifies to the one fixed timeout sentinel, so the
surrounding message text is discarded and any two such replies yield
identical errors; the sentinel's own text is the bare needle. -/
theorem handleError_timeout_sentinel (r r' : Response)
    (h : stringContains (goToLower r.Message) "maximum timeout reached" = true)
    (h' : stringContains (goToLower r'.Message) "maximum timeout reached" = true) :
    handleError r = FlareError.errRequestTimeout ∧
    handleError r' = handleError r ∧
    flareErrorText (handleError r) = "maximum timeout reached" := by
  simp [handleError, h, h', flareErrorText]

/-- Witness for C9: two timeout replies with different surrounding text
yield the same sentinel error. -/
theorem handleError_timeout_sentinel_witness :
    stringContains
      (goToLower "Error: MAXIMUM TIMEOUT REACHED while solving the challenge")
      "maximum timeout reached" = true ∧
    stringContains (goToLower "maximum timeout reached") "maximum timeout reached" = true ∧
    handleError ⟨"error", "Error: MAXIMUM TIMEOUT REACHED while solving the challenge",
        0, 0, "", "", [], none⟩ = FlareError.errRequestTimeout ∧
    handleError ⟨"error", "maximum timeout reached", 0, 0, "", "", [], none⟩
      = handleError ⟨"error", "Error: MAXIMUM TIMEOUT REACHED while solving the challenge",
          0, 0, "", "", [], none⟩ :=
  ⟨by decide, by decide,
    (handleError_timeout_sentinel
      ⟨"error", "Error: MAXIMUM TIMEOUT REACHED while solving the challenge",
        0, 0, "", "", [], none⟩
      ⟨"error", "maximum timeout reached", 0, 0, "", "", [], none⟩
      (by decide) (by decide)).1,
    (handleError_timeout_sentinel
      ⟨"error", "Error: MAXIMUM TIMEOUT REACHED while solving the challenge",
        0, 0, "", "", [], none⟩
      ⟨"error", "maximum timeout reached", 0, 0, "", "", [], none⟩
      (by decide) (by decide)).2.1⟩

theorem doFull_wireCommand (c : client) (cmd : flaresolverrCommand) (o : ExchangeOutcome) :
    (doFull c cmd o).wireCommand
      = { cmd with MaxTimeout := durationMilliseconds c.timeout } := by
  cases o with
  | requestBuildFailure m => rfl
  | transportFailure m => rfl
  | decodeFailure m => rfl
  | reply s b =>
      dsimp only [doFull]
      split <;> rfl

theorem doFull_payload (c : client) (cmd : flaresolverrCommand) (o : ExchangeOutcome) :
    (doFull c cmd o).payload
      = commandJSONFields { cmd with MaxTimeout := durationMilliseconds c.timeout } := by
  cases o with
  | requestBuildFailure m => rfl
  | transportFailure m => rfl
  | decodeFailure m => rfl
  | reply s b =>
      dsimp only [doFull]
      split <;> rfl

theorem lookup_maxTimeout (fc : flaresolverrCommand) :
    List.lookup "maxTimeout" (commandJSONFields fc)
      = some (JValue.jnum fc.MaxTimeout) := by
  unfold commandJSONFields
  by_cases hs : fc.Session = "" <;> simp [hs, List.lookup]

/-- C2: `do` decodes the body for every status; HTTP 200 returns the
decoded Response and no error, any other status returns the classified
error of the decoded body and no Response, and over every exchange
outcome exactly one of Response and error is present. -/
theorem do_success_failure_dichotomy (c : client) (cmd : flaresolverrCommand) :
    (∀ (statusCode : Nat) (body : Response),
      (statusCode = 200 →
        (doFull c cmd (ExchangeOutcome.reply statusCode body)).response = some body ∧
        (doFull c cmd (ExchangeOutcome.reply statusCode body)).err = none) ∧
      (statusCode ≠ 200 →
        (doFull c cmd (ExchangeOutcome.reply statusCode body)).response = none ∧
        (doFull c cmd (ExchangeOutcome.reply statusCode body)).err
          = some (DoError.classified (handleError body)))) ∧
    (∀ o : ExchangeOutcome,
      ((doFull c cmd o).response.isSome ∧ (doFull c cmd o).err = none) ∨
      ((doFull c cmd o).response = none ∧ (doFull c cmd o).err.isSome)) := by
  constructor
  · intro statusCode body
    constructor
    · intro h
      subst h
      simp [doFull]
    · intro h
      simp [doFull, h]
  · intro o
    cases o with
    | requestBuildFailure m => right; simp [doFull]
    | transportFailure m => right; simp [doFull]
    | decodeFailure m => right; simp [doFull]
    | reply s b =>
        by_cases h : s = 200
        · left; subst h; simp [doFull]
        · right; simp [doFull, h]

/-- Witness for C2 at a 200 and a 500 reply. -/
theorem do_success_failure_dichotomy_witness :
    (200 : Nat) = 200 ∧ (500 : Nat) ≠ 200 ∧
    (doFull (New "http://localhost:8191/v1" 0 none) listSessionsCmd
        (ExchangeOutcome.reply 200 sampleOkResponse)).response = some sampleOkResponse ∧
    (doFull (New "http://localhost:8191/v1" 0 none) listSessionsCmd
        (ExchangeOutcome.reply 500 sampleErrResponse)).response = none :=
  ⟨rfl, by decide,
    (((do_success_failure_dichotomy (New "http://localhost:8191/v1" 0 none)
        listSessionsCmd).1 200 sampleOkResponse).1 rfl).1,
    (((do_success_failure_dichotomy (New "http://localhost:8191/v1" 0 none)
        listSessionsCmd).1 500 sampleErrResponse).2 (by decide)).1⟩

/-- C4: the dispatch overwrites whatever `MaxTimeout` a command carried
with the configured client timeout in milliseconds, for every command —
in particular for the commands built by each of the five public
operations — and the serialized payload carries exactly that value. -/
theorem do_maxTimeout_override (c : client) (cmd : flaresolverrCommand)
    (s : UUID) (u d : String) (p : List String) (o : ExchangeOutcome) :
    (doFull c cmd o).wireCommand.MaxTimeout = durationMilliseconds c.timeout ∧
    List.lookup "maxTimeout" (doFull c cmd o).payload
      = some (JValue.jnum (durationMilliseconds c.timeout)) ∧
    (CreateSession c s p o).wireCommand.MaxTimeout = durationMilliseconds c.timeout ∧
    (ListSessions c o).wireCommand.MaxTimeout = durationMilliseconds c.timeout ∧
    (doFull c (destroySessionCmd s) o).wireCommand.MaxTimeout
      = durationMilliseconds c.timeout ∧
    (Get c u s p o).wireCommand.MaxTimeout = durationMilliseconds c.timeout ∧
    (Post c u s d p o).wireCommand.MaxTimeout = durationMilliseconds c.timeout := by
  refine ⟨?_, ?_, ?_, ?_, ?_, ?_, ?_⟩
  · rw [doFull_wireCommand]
  · rw [doFull_payload, lookup_maxTimeout]
  · rw [CreateSession, doFull_wireCommand]
  · rw [ListSessions, doFull_wireCommand]
  · rw [doFull_wireCommand]
  · rw [Get, doFull_wireCommand]
  · rw [Post, doFull_wireCommand]

/-- C5: `New` defaults a zero timeout to 60000 ms and a missing transport
to the shared default client, and preserves any non-zero timeout and any
supplied transport exactly. -/
theorem New_defaults (b : String) (t : Int) (hc : Option HTTPClient) :
    (t = 0 →
      (New b t hc).timeout = 1000000 * 60000 ∧
      durationMilliseconds (New b t hc).timeout = 60000) ∧
    (t ≠ 0 → (New b t hc).timeout = t) ∧
    (hc = none → (New b t hc).httpClient = HTTPClient.defaultClient) ∧
    (∀ cl, hc = some cl → (New b t hc).httpClient = cl) ∧
    (New b t hc).baseURL = b := by
  refine ⟨?_, ?_, ?_, ?_, ?_⟩
  · intro h
    subst h
    exact ⟨rfl, rfl⟩
  · intro h
    simp [New, h]
  · intro h
    subst h
    rfl
  · intro cl h
    subst h
    rfl
  · cases hc <;> rfl

/-- Witness for C5 at the constructor inputs of the repository's own
`TestNew` cases. -/
theorem New_defaults_witness :
    (New "foo.bar" 0 none).timeout = 1000000 * 60000 ∧
    durationMilliseconds (New "foo.bar" 0 none).timeout = 60000 ∧
    (New "foo.bar" 0 none).httpClient = HTTPClient.defaultClient ∧
    (New "foo.bar" 100 (some (HTTPClient.custom 7))).timeout = 100 ∧
    (New "foo.bar" 100 (some (HTTPClient.custom 7))).httpClient = HTTPClient.custom 7 :=
  ⟨((New_defaults "foo.bar" 0 none).1 rfl).1,
    ((New_defaults "foo.bar" 0 none).1 rfl).2,
    (New_defaults "foo.bar" 0 none).2.2.1 rfl,
    (New_defaults "foo.bar" 100 (some (HTTPClient.custom 7))).2.1 (by decide),
    (New_defaults "foo.bar" 100 (some (HTTPClient.custom 7))).2.2.2.1
      (HTTPClient.custom 7) rfl⟩

/-- C8: every dispatch derives its context deadline from the
caller-supplied context with the configured timeout plus a fixed
10-second margin. -/
theorem do_context_timeout_margin (c : client) (cmd : flaresolverrCommand)
    (o : ExchangeOutcome) :
    (doFull c cmd o).contextTimeout = c.timeout + 10 * 1000000000 := by
  cases o with
  | requestBuildFailure m => rfl
  | transportFailure m => rfl
  | decodeFailure m => rfl
  | reply s b =>
      dsimp only [doFull]
      split <;> rfl

theorem keys_no_reserved (fc : flaresolverrCommand) (hc : fc.Cookies = [])
    (hr : fc.ReturnOnlyCookies = false) :
    ((commandJSONFields fc).map Prod.fst).contains "cookies" = false ∧
    ((commandJSONFields fc).map Prod.fst).contains "returnOnlyCookies" = false := by
  unfold commandJSONFields
  rw [hc, hr]
  by_cases hs : fc.Session = "" <;> by_cases hp : fc.Proxy = "" <;>
    by_cases hd : fc.PostData = "" <;>
    simp [hs, hp, hd]

theorem doFull_omits (c : client) (cmd : flaresolverrCommand) (o : ExchangeOutcome)
    (hc : cmd.Cookies = []) (hr : cmd.ReturnOnlyCookies = false) :
    omitsReservedFields (doFull c cmd o) := by
  unfold omitsReservedFields
  rw [doFull_wireCommand, doFull_payload]
  exact ⟨hc, hr, keys_no_reserved _ hc hr⟩

/-- C6: the `Post` operation carries the caller's body string through
verbatim: the built command's `PostData` field is the string itself, the
dispatched wire command still carries it unchanged, and (when non-empty)
the serialized payload contains it as the `postData` member. -/
theorem Post_postData_verbatim (c : client) (u : String) (s : UUID) (d : String)
    (p : List String) (o : ExchangeOutcome) :
    (postCmd u s d p).PostData = d ∧
    (Post c u s d p o).wireCommand.PostData = d ∧
    (d ≠ "" → ("postData", JValue.jstr d) ∈ (Post c u s d p o).payload) := by
  have h1 : (postCmd u s d p).PostData = d := by
    unfold postCmd
    cases p <;> rfl
  refine ⟨h1, ?_, ?_⟩
  · rw [Post, doFull_wireCommand]
    exact h1
  · intro hd
    rw [Post, doFull_payload]
    unfold commandJSONFields
    simp only [h1]
    simp [hd]

/-- Witness for C6 at the test suite's body string "foo=bar". -/
theorem Post_postData_verbatim_witness :
    ("foo=bar" : String) ≠ "" ∧
    (postCmd "https://httpbin.org/anything" uuidNil "foo=bar" []).PostData = "foo=bar" ∧
    ("postData", JValue.jstr "foo=bar")
      ∈ (Post (New "http://localhost:8191/v1" 0 none) "https://httpbin.org/anything"
          uuidNil "foo=bar" [] (ExchangeOutcome.reply 200 sampleOkResponse)).payload :=
  ⟨by decide,
    (Post_postData_verbatim (New "http://localhost:8191/v1" 0 none)
      "https://httpbin.org/anything" uuidNil "foo=bar" []
      (ExchangeOutcome.reply 200 sampleOkResponse)).1,
    (Post_postData_verbatim (New "http://localhost:8191/v1" 0 none)
      "https://httpbin.org/anything" uuidNil "foo=bar" []
      (ExchangeOutcome.reply 200 sampleOkResponse)).2.2 (by decide)⟩

/-- C7: none of the five public operations ever populates the cookies
field or sets returnOnlyCookies, and both are omitted from the
serialized JSON of every dispatched command. -/
theorem commands_omit_reserved (c : client) (s : UUID) (u d : String)
    (p : List String) (o : ExchangeOutcome) :
    omitsReservedFields (CreateSession c s p o) ∧
    omitsReservedFields (ListSessions c o) ∧
    omitsReservedFields (doFull c (destroySessionCmd s) o) ∧
    omitsReservedFields (Get c u s p o) ∧
    omitsReservedFields (Post c u s d p o) := by
  refine ⟨?_, ?_, ?_, ?_, ?_⟩
  · rw [CreateSession]
    exact doFull_omits c _ o (by unfold createSessionCmd; cases p <;> rfl)
      (by unfold createSessionCmd; cases p <;> rfl)
  · exact doFull_omits c _ o rfl rfl
  · exact doFull_omits c _ o rfl rfl
  · rw [Get]
    exact doFull_omits c _ o (by unfold getCmd; cases p <;> rfl)
      (by unfold getCmd; cases p <;> rfl)
  · rw [Post]
    exact doFull_omits c _ o (by unfold postCmd; cases p <;> rfl)
      (by unfold postCmd; cases p <;> rfl)

/-- C10: only an exactly-zero timeout triggers the 60000 ms default: a
negative timeout is stored unchanged by the constructor and the dispatch
then writes that duration's (negative) millisecond count into the wire
`MaxTimeout`. -/
theorem New_negative_timeout (b : String) (t : Int) (hc : Option HTTPClient)
    (cmd : flaresolverrCommand) (o : ExchangeOutcome) (h : t < 0) :
    (New b t hc).timeout = t ∧
    (doFull (New b t hc) cmd o).wireCommand.MaxTimeout = durationMilliseconds t := by
  have hne : t ≠ 0 := by omega
  have ht : (New b t hc).timeout = t := by simp [New, hne]
  refine ⟨ht, ?_⟩
  rw [doFull_wireCommand]
  simp [ht]

/-- Witness for C10 at the timeout -5000000 ns (-5 ms). -/
theorem New_negative_timeout_witness :
    (-5000000 : Int) < 0 ∧
    (New "foo.bar" (-5000000) none).timeout = -5000000 ∧
    (doFull (New "foo.bar" (-5000000) none) listSessionsCmd
        (ExchangeOutcome.transportFailure "connection refused")).wireCommand.MaxTimeout
      = -5 := by
  have h := New_negative_timeout "foo.bar" (-5000000) none listSessionsCmd
    (ExchangeOutcome.transportFailure "connection refused") (by decide)
  refine ⟨by decide, h.1, ?_⟩
  rw [h.2]
  decide
